import Mathlib

/-!
Verification of the VP-tree core of the NonMetricSpaceLib-based benchmark:
the polynomial pruning oracle (`searchoracle.h`), the parameter auto-tuner
(`tune_vptree.cc`), and the projection / binarized-permutation VP-tree
surrogate wrappers (`proj_vptree.{h,cc}`, `perm_bin_vptree.cc`).

Distances are embedded as exact rationals (`ℚ`); the C++ code computes the
pruning arithmetic in `double`.  Exponents are naturals, mirroring the
`unsigned` fields of `PolynomialPruner`.  Fallible C++ code (`throw`,
`LOG(LIB_FATAL)`) is embedded as functions returning `Except`/sum-like
result types with dedicated error values.
-/

namespace NnsBenchmark

/-- The three visit decisions of a pruning oracle,
`enum VPTreeVisitDecision { kVisitLeft = 1, kVisitRight = 2, kVisitBoth = 3 }`
(searchoracle.h:136). -/
inductive VPTreeVisitDecision
  | kVisitLeft
  | kVisitRight
  | kVisitBoth
  deriving DecidableEq, Repr

/-- Modelled from the spec: `EfficientPow` lives in `pow.h`, which is not under
`src/`.  The spec's pruning rule uses the exact power `Δ^{eL}` / `Δ^{eR}`
("If `Rmax < αL · Δ^{eL}` …"), so the helper is the exact power function. -/
def EfficientPow (base : ℚ) (e : ℕ) : ℚ := base ^ e

/-- The mutable parameter state of `PolynomialPruner<dist_t>`
(searchoracle.h:196-199): two stretch coefficients (`double`) and two
exponents (`unsigned`). -/
structure PolynomialPruner where
  alpha_left : ℚ
  exp_left : ℕ
  alpha_right : ℚ
  exp_right : ℕ
  deriving DecidableEq, Repr

/-- The tail of `PolynomialPruner::Classify` starting at the second `if`
(searchoracle.h:175-182): reached when the first block did not return. -/
def PolynomialPruner.classifyRightBranch (p : PolynomialPruner)
    (distQueryPivot MaxDist MedianDist : ℚ) : VPTreeVisitDecision :=
  if MedianDist ≤ distQueryPivot then
    if MaxDist < p.alpha_right * EfficientPow (distQueryPivot - MedianDist) p.exp_right then
      .kVisitRight
    else
      .kVisitBoth
  else
    .kVisitBoth

/-- `PolynomialPruner::Classify(distQueryPivot, MaxDist, MedianDist)`
(searchoracle.h:160-183).  The first `if` block either returns `kVisitLeft`
or falls through to the second block, embedded as `classifyRightBranch`. -/
def PolynomialPruner.Classify (p : PolynomialPruner)
    (distQueryPivot MaxDist MedianDist : ℚ) : VPTreeVisitDecision :=
  if distQueryPivot ≤ MedianDist then
    if MaxDist < p.alpha_left * EfficientPow (MedianDist - distQueryPivot) p.exp_left then
      .kVisitLeft
    else
      p.classifyRightBranch distQueryPivot MaxDist MedianDist
  else
    p.classifyRightBranch distQueryPivot MaxDist MedianDist

/-- The `(expLeft, expRight)` pairs for which `RunExper` invokes the nested
grid search (tune_vptree.cc:197-199): the loop variable `ce` runs over
`MinExp, …, MaxExp` and both exponents are set to `ce`. -/
def tunerExponentPairs (MinExp MaxExp : ℕ) : List (ℕ × ℕ) :=
  (List.range' MinExp (MaxExp + 1 - MinExp)).map (fun ce => (ce, ce))

/-- The best configuration tracked across restarts in `RunExper`
(tune_vptree.cc:194-229): measured recall plus the winning pruner
parameters. -/
structure TuneResult where
  recallValue : ℚ
  alpha_left : ℚ
  alpha_right : ℚ
  exp_left : ℕ
  exp_right : ℕ
  deriving DecidableEq, Repr

/-- Outcome of the reporting phase of `RunExper`.  `fatalFailure` embeds
`LOG(LIB_FATAL) << "Failed to get the desired recall!"` — per the spec's
error-handling section a fatal condition terminates the operation, so the
constructor carries nothing.  `success` carries the four parameters of the
`bestParams` line written to the result file (tune_vptree.cc:231-233,261). -/
inductive TuneReport
  | fatalFailure
  | success (alphaLeft alphaRight : ℚ) (expLeft expRight : ℕ)
  deriving DecidableEq, Repr

/-- The reporting phase of `RunExper` after the restart loops
(tune_vptree.cc:250-263): if the best recall is below the desired recall,
`LOG(LIB_FATAL)` fires (and the code writing `bestParams` to the result
file is never reached); otherwise the best parameters are reported.
The `LIB_FATAL` termination semantics is modelled from the spec
(`logging.h` is not under `src/`): fatal errors end the operation. -/
def reportTuneOutcome (desiredRecall : ℚ) (best : TuneResult) : TuneReport :=
  if best.recallValue < desiredRecall then
    .fatalFailure
  else
    .success best.alpha_left best.alpha_right best.exp_left best.exp_right

end NnsBenchmark

namespace NnsBenchmark

/-- C1: the polynomial pruner classifies exactly by the spec's rule: Left-only
when `dq ≤ M` and `Rmax < αL·(M−dq)^eL`; else Right-only when `dq ≥ M` and
`Rmax < αR·(dq−M)^eR`; otherwise Both. -/
theorem polynomialPruner_classify_rule (p : PolynomialPruner) (dq Rmax M : ℚ) :
    p.Classify dq Rmax M =
      if dq ≤ M ∧ Rmax < p.alpha_left * (M - dq) ^ p.exp_left then
        VPTreeVisitDecision.kVisitLeft
      else if M ≤ dq ∧ Rmax < p.alpha_right * (dq - M) ^ p.exp_right then
        VPTreeVisitDecision.kVisitRight
      else
        VPTreeVisitDecision.kVisitBoth := by
  unfold PolynomialPruner.Classify PolynomialPruner.classifyRightBranch EfficientPow
  split_ifs <;> tauto

/-- C5: classification is monotone in `Rmax`: if the pruner answers Both at
radius `Rmax1` then it still answers Both at any larger radius `Rmax2`. -/
theorem polynomialPruner_classify_monotone_rmax (p : PolynomialPruner)
    (dq M Rmax1 Rmax2 : ℚ) (hle : Rmax1 ≤ Rmax2)
    (hboth : p.Classify dq Rmax1 M = VPTreeVisitDecision.kVisitBoth) :
    p.Classify dq Rmax2 M = VPTreeVisitDecision.kVisitBoth := by
  unfold PolynomialPruner.Classify PolynomialPruner.classifyRightBranch at *
  split_ifs at * <;> first
    | rfl
    | linarith

/-- Witness for C5 at a concrete input. -/
theorem polynomialPruner_classify_monotone_rmax_witness :
    (0 : ℚ) ≤ 1 ∧
      PolynomialPruner.Classify ⟨1, 1, 1, 1⟩ 0 0 0 = VPTreeVisitDecision.kVisitBoth ∧
      PolynomialPruner.Classify ⟨1, 1, 1, 1⟩ 0 1 0 = VPTreeVisitDecision.kVisitBoth := by
  refine ⟨by norm_num, ?_, ?_⟩
  · unfold PolynomialPruner.Classify PolynomialPruner.classifyRightBranch EfficientPow
    norm_num
  · exact polynomialPruner_classify_monotone_rmax ⟨1, 1, 1, 1⟩ 0 0 0 1 (by norm_num)
      (by unfold PolynomialPruner.Classify PolynomialPruner.classifyRightBranch EfficientPow
          norm_num)

/-- C6: with exponents at least 1 (the data model's `eL,eR ∈ ℕ⁺`), at the
median (`dq = M`) with zero radius (`Rmax = 0`) the strict inequalities both
fail and the pruner visits both subtrees, for any coefficients. -/
theorem polynomialPruner_classify_median_zero_radius (p : PolynomialPruner)
    (M : ℚ) (hL : 1 ≤ p.exp_left) (hR : 1 ≤ p.exp_right) :
    p.Classify M 0 M = VPTreeVisitDecision.kVisitBoth := by
  unfold PolynomialPruner.Classify PolynomialPruner.classifyRightBranch EfficientPow
  have h0 : M - M = 0 := by ring
  rw [h0, zero_pow (by omega : p.exp_left ≠ 0), zero_pow (by omega : p.exp_right ≠ 0)]
  simp

/-- Witness for C6 at a concrete input. -/
theorem polynomialPruner_classify_median_zero_radius_witness :
    1 ≤ (1 : ℕ) ∧
      PolynomialPruner.Classify ⟨1, 1, 1, 1⟩ 5 0 5 = VPTreeVisitDecision.kVisitBoth :=
  ⟨by norm_num,
   polynomialPruner_classify_median_zero_radius ⟨1, 1, 1, 1⟩ 5 (by norm_num) (by norm_num)⟩

/-- C10: a one-sided decision always keeps the query's side of the median:
when `dq > M` the pruner never answers Left-only, and when `dq < M` it never
answers Right-only — for all inputs and all parameter values. -/
theorem polynomialPruner_classify_one_sided (p : PolynomialPruner) (dq Rmax M : ℚ) :
    (M < dq → p.Classify dq Rmax M ≠ VPTreeVisitDecision.kVisitLeft) ∧
    (dq < M → p.Classify dq Rmax M ≠ VPTreeVisitDecision.kVisitRight) := by
  unfold PolynomialPruner.Classify PolynomialPruner.classifyRightBranch
  refine ⟨fun hlt => ?_, fun hlt => ?_⟩
  · split_ifs <;> first | linarith | simp_all
  · split_ifs <;> first | linarith | simp_all

/-- Witness for C10 at concrete inputs on each side of the median. -/
theorem polynomialPruner_classify_one_sided_witness :
    PolynomialPruner.Classify ⟨1, 1, 1, 1⟩ 5 0 3 ≠ VPTreeVisitDecision.kVisitLeft ∧
    PolynomialPruner.Classify ⟨1, 1, 1, 1⟩ 1 0 3 ≠ VPTreeVisitDecision.kVisitRight :=
  ⟨(polynomialPruner_classify_one_sided ⟨1, 1, 1, 1⟩ 5 0 3).1 (by norm_num),
   (polynomialPruner_classify_one_sided ⟨1, 1, 1, 1⟩ 1 0 3).2 (by norm_num)⟩

/-- C2 counterexample: for the exponent range `[1, 2]` the off-diagonal lattice
pair `(eL, eR) = (1, 2)` satisfies the range bounds but is never passed to the
grid search: the tuner loop only produces equal exponent pairs. -/
theorem tunerExponentPairs_lattice_counterexample :
    (1 ≤ 1 ∧ 1 ≤ 2 ∧ 1 ≤ 2 ∧ 2 ≤ 2) ∧ (1, 2) ∉ tunerExponentPairs 1 2 := by
  constructor
  · omega
  · decide

/-- C2 (amended): the auto-tuner runs its nested grid search exactly for the
diagonal exponent pairs of the range: `(eL, eR)` is evaluated iff `eL = eR`
and `minExp ≤ eL ≤ maxExp`; off-diagonal lattice pairs are never evaluated. -/
theorem tunerExponentPairs_diagonal (MinExp MaxExp eL eR : ℕ) :
    (eL, eR) ∈ tunerExponentPairs MinExp MaxExp ↔
      eL = eR ∧ MinExp ≤ eL ∧ eL ≤ MaxExp := by
  unfold tunerExponentPairs
  simp only [List.mem_map, List.mem_range', Prod.mk.injEq]
  constructor
  · rintro ⟨ce, ⟨i, hi, rfl⟩, h1, h2⟩
    omega
  · rintro ⟨rfl, h1, h2⟩
    exact ⟨eL, ⟨eL - MinExp, by omega, by omega⟩, rfl, rfl⟩

/-- C3 counterexample: with desired recall `9/10` and best observed
configuration `(recall = 1/2, αL = αR = 1, eL = eR = 1)`, `RunExper` ends in
the bare `fatalFailure` outcome, which carries no parameters: the best
observed configuration is not reported to the caller. -/
theorem reportTuneOutcome_failure_counterexample :
    reportTuneOutcome (9 / 10) ⟨1 / 2, 1, 1, 1, 1⟩ = TuneReport.fatalFailure := by
  unfold reportTuneOutcome
  norm_num

/-- C3 (amended): if the best observed recall is below the desired recall,
the tuner terminates with a fatal failure that does not carry the best
configuration; the best parameters are reported (written to the result file)
only when the desired recall is reached. -/
theorem reportTuneOutcome_spec (desiredRecall : ℚ) (best : TuneResult) :
    (best.recallValue < desiredRecall →
        reportTuneOutcome desiredRecall best = TuneReport.fatalFailure) ∧
    (desiredRecall ≤ best.recallValue →
        reportTuneOutcome desiredRecall best =
          TuneReport.success best.alpha_left best.alpha_right best.exp_left best.exp_right) := by
  unfold reportTuneOutcome
  split_ifs with h
  · exact ⟨fun _ => rfl, fun hle => absurd h (not_lt.mpr hle)⟩
  · exact ⟨fun hlt => absurd hlt h, fun _ => rfl⟩

/-- Witness for C3's amended theorem at concrete inputs on both sides. -/
theorem reportTuneOutcome_spec_witness :
    reportTuneOutcome (9 / 10) ⟨1 / 2, 1, 1, 1, 1⟩ = TuneReport.fatalFailure ∧
    reportTuneOutcome (9 / 10) ⟨1, 2, 3, 4, 5⟩ = TuneReport.success 2 3 4 5 :=
  ⟨(reportTuneOutcome_spec (9 / 10) ⟨1 / 2, 1, 1, 1, 1⟩).1 (by norm_num),
   (reportTuneOutcome_spec (9 / 10) ⟨1, 2, 3, 4, 5⟩).2 (by norm_num)⟩

end NnsBenchmark

namespace NnsBenchmark

/-- `ProjectionVPTree::computeDbScan(K)` (proj_vptree.h:67-70):
`if (knn_amp_) { return min(K * knn_amp_, data_.size()); }`
`return static_cast<size_t>(db_scan_frac_ * data_.size());`
The C++ cast truncates the `float` product toward zero; for the non-negative
fractions the wrapper accepts this is the floor, embedded as
`Int.toNat ∘ Int.floor`. -/
def computeDbScan (knn_amp : ℕ) (db_scan_frac : ℚ) (N K : ℕ) : ℕ :=
  if knn_amp ≠ 0 then min (K * knn_amp) N
  else (⌊db_scan_frac * N⌋).toNat

/-- The error thrown by `ProjectionVPTree::Search(KNNQuery)` when the
candidate count is zero: `"You need to specify knnAmp > 0 or a sufficiently
large dbScanFrac!"` (proj_vptree.cc:228). -/
inductive ProjSearchError
  | emptyCandidateSet
  deriving DecidableEq, Repr

/-- The candidate-count step of `ProjectionVPTree::Search(KNNQuery)`
(proj_vptree.cc:225-229): compute `db_scan_qty = computeDbScan(query->GetK())`
and throw if it is zero; the `throw` is embedded as `Except.error`. -/
def projVPTreeKnnCandQty (knn_amp : ℕ) (db_scan_frac : ℚ) (N K : ℕ) :
    Except ProjSearchError ℕ :=
  let db_scan_qty := computeDbScan knn_amp db_scan_frac N K
  if db_scan_qty = 0 then .error .emptyCandidateSet else .ok db_scan_qty

/-- The query-time parameter state of `ProjectionVPTree`
(proj_vptree.h:64-65): `knn_amp_` (`size_t`) and `db_scan_frac_` (`float`). -/
structure ProjQueryParams where
  db_scan_frac : ℚ
  knn_amp : ℕ
  deriving DecidableEq, Repr

/-- The error thrown by `ProjectionVPTree::SetQueryTimeParamsInternal` when
both parameters are supplied: `"One shouldn't specify both parameters
dbScanFrac and knnAmp"` (proj_vptree.cc:53). -/
inductive ProjParamError
  | bothDbScanFracAndKnnAmp
  deriving DecidableEq, Repr

/-- `ProjectionVPTree::SetQueryTimeParamsInternal` (proj_vptree.cc:48-66):
throw if both `dbScanFrac` and `knnAmp` are present; zero the field whose
parameter is absent (both when neither is present); then overwrite each field
from its parameter when present (`GetParamOptional`). -/
def SetQueryTimeParamsInternal (dbScanFrac : Option ℚ) (knnAmp : Option ℕ)
    (st : ProjQueryParams) : Except ProjParamError ProjQueryParams :=
  if dbScanFrac.isSome && knnAmp.isSome then
    .error .bothDbScanFracAndKnnAmp
  else
    let st1 := if knnAmp.isSome then { st with db_scan_frac := 0 }
               else { st with knn_amp := 0 }
    let st2 := if !dbScanFrac.isSome && !knnAmp.isSome then
                 { st1 with db_scan_frac := 0, knn_amp := 0 }
               else st1
    let st3 := match dbScanFrac with
               | some v => { st2 with db_scan_frac := v }
               | none => st2
    let st4 := match knnAmp with
               | some v => { st3 with knn_amp := v }
               | none => st3
    .ok st4

end NnsBenchmark

namespace NnsBenchmark

/-- C4 counterexample: with `knnAmp = 2`, `k = 3`, `N = 4` the candidate count
is `min(knnAmp·k, N) = 4`, not `knnAmp·k = 6`; and with `knnAmp = 0`,
`dbScanFrac = 1/2`, `N = 3` it is `⌊3/2⌋ = 1`, not `⌈3/2⌉ = 2`. -/
theorem computeDbScan_counterexample :
    (computeDbScan 2 0 4 3 = 4 ∧ 2 * 3 = 6 ∧ (4 : ℕ) ≠ 6) ∧
    (computeDbScan 0 (1 / 2) 3 0 = 1 ∧ ⌈(1 / 2 : ℚ) * 3⌉ = 2 ∧ (1 : ℕ) ≠ 2) := by
  refine ⟨⟨?_, by norm_num, by norm_num⟩, ⟨?_, ?_, by norm_num⟩⟩
  · unfold computeDbScan
    norm_num
  · unfold computeDbScan
    norm_num
  · rw [Int.ceil_eq_iff]
    constructor <;> norm_num

/-- C4 (amended): the surrogate candidate count is `min(knnAmp·k, N)` when
`knnAmp > 0` and `⌊dbScanFrac·N⌋` otherwise; the k-NN search accepts the
count precisely when it is at least 1 and errors when it is 0. -/
theorem computeDbScan_spec (knn_amp : ℕ) (db_scan_frac : ℚ) (N K : ℕ) :
    (0 < knn_amp → computeDbScan knn_amp db_scan_frac N K = min (K * knn_amp) N) ∧
    (knn_amp = 0 → computeDbScan knn_amp db_scan_frac N K = (⌊db_scan_frac * N⌋).toNat) ∧
    (1 ≤ computeDbScan knn_amp db_scan_frac N K →
        projVPTreeKnnCandQty knn_amp db_scan_frac N K =
          Except.ok (computeDbScan knn_amp db_scan_frac N K)) ∧
    (computeDbScan knn_amp db_scan_frac N K = 0 →
        projVPTreeKnnCandQty knn_amp db_scan_frac N K =
          Except.error ProjSearchError.emptyCandidateSet) := by
  refine ⟨fun hpos => ?_, fun hzero => ?_, fun hge => ?_, fun hzero => ?_⟩
  · unfold computeDbScan
    have h : knn_amp ≠ 0 := by omega
    simp [h]
  · unfold computeDbScan
    simp [hzero]
  · unfold projVPTreeKnnCandQty
    simp only []
    rw [if_neg (by omega)]
  · unfold projVPTreeKnnCandQty
    simp only []
    rw [if_pos hzero]

/-- Witness for C4's amended theorem at concrete inputs covering all four
conjuncts. -/
theorem computeDbScan_spec_witness :
    computeDbScan 2 0 4 3 = min (3 * 2) 4 ∧
    computeDbScan 0 (1 / 2) 3 0 = (⌊(1 / 2 : ℚ) * (3 : ℕ)⌋).toNat ∧
    projVPTreeKnnCandQty 2 0 4 3 = Except.ok (computeDbScan 2 0 4 3) ∧
    projVPTreeKnnCandQty 0 0 3 0 = Except.error ProjSearchError.emptyCandidateSet :=
  ⟨(computeDbScan_spec 2 0 4 3).1 (by norm_num),
   (computeDbScan_spec 0 (1 / 2) 3 0).2.1 rfl,
   (computeDbScan_spec 2 0 4 3).2.2.1 (by unfold computeDbScan; norm_num),
   (computeDbScan_spec 0 0 3 0).2.2.2 (by unfold computeDbScan; norm_num)⟩

/-- C7: supplying both `dbScanFrac` and `knnAmp` raises the invalid-combination
error at parameter-set time (before any query runs, since `Search` is a
separate operation on the successfully updated state); supplying exactly one
of the two is accepted. -/
theorem setQueryTimeParams_exclusive (dbScanFrac : Option ℚ) (knnAmp : Option ℕ)
    (st : ProjQueryParams) :
    (dbScanFrac.isSome = true → knnAmp.isSome = true →
        SetQueryTimeParamsInternal dbScanFrac knnAmp st =
          Except.error ProjParamError.bothDbScanFracAndKnnAmp) ∧
    (dbScanFrac.isSome = true → knnAmp.isSome = false →
        ∃ st', SetQueryTimeParamsInternal dbScanFrac knnAmp st = Except.ok st') ∧
    (dbScanFrac.isSome = false → knnAmp.isSome = true →
        ∃ st', SetQueryTimeParamsInternal dbScanFrac knnAmp st = Except.ok st') := by
  cases dbScanFrac <;> cases knnAmp <;>
    simp [SetQueryTimeParamsInternal]

/-- Witness for C7 at concrete parameter combinations. -/
theorem setQueryTimeParams_exclusive_witness :
    SetQueryTimeParamsInternal (some (1 / 2)) (some 3) ⟨0, 0⟩ =
        Except.error ProjParamError.bothDbScanFracAndKnnAmp ∧
    (∃ st', SetQueryTimeParamsInternal (some (1 / 2)) none ⟨0, 0⟩ = Except.ok st') ∧
    (∃ st', SetQueryTimeParamsInternal none (some 3) ⟨0, 0⟩ = Except.ok st') :=
  ⟨(setQueryTimeParams_exclusive (some (1 / 2)) (some 3) ⟨0, 0⟩).1 rfl rfl,
   (setQueryTimeParams_exclusive (some (1 / 2)) none ⟨0, 0⟩).2.1 rfl rfl,
   (setQueryTimeParams_exclusive none (some 3) ⟨0, 0⟩).2.2 rfl rfl⟩

end NnsBenchmark

namespace NnsBenchmark

/-- Number of set bits of a natural number (the 1-bits of the packed words). -/
def popCount (n : ℕ) : ℕ :=
  if h : n = 0 then 0 else n % 2 + popCount (n / 2)
termination_by n
decreasing_by exact Nat.div_lt_self (Nat.pos_of_ne_zero h) one_lt_two

/-- The value of one packed 32-bit word: bit `i` of the word is the `i`-th
entry of the chunk (least significant bit first). -/
def wordOfBits (bs : List Bool) : ℕ :=
  bs.foldr (fun b acc => (if b then 1 else 0) + 2 * acc) 0

/-- Split a list into consecutive chunks of 32 elements (the last chunk may be
shorter), mirroring how `Binarize` fills `(perm.size() + 31) / 32` words. -/
def chunks32 {α : Type} (l : List α) : List (List α) :=
  match l with
  | [] => []
  | a :: rest => ((a :: rest).take 32) :: chunks32 ((a :: rest).drop 32)
termination_by l.length
decreasing_by
  simp only [List.length_drop, List.length_cons]
  omega

/-- Modelled from the spec: `Binarize` lives in `permutation_utils.h`, which is
not under `src/`.  Spec: "Take permutation vector, threshold at `τ` → bit i = 1
iff rank of pivot i < τ.  Pack into 32-bit words."  The result is the list of
packed 32-bit words; `perm_bin_vptree.cc:89` checks that their number is
`bin_perm_word_qty_ = (NumPivot + 31) / 32`. -/
def Binarize (perm : List ℕ) (thresh : ℕ) : List ℕ :=
  (chunks32 (perm.map (fun r => decide (r < thresh)))).map wordOfBits

theorem popCount_two_mul (n : ℕ) : popCount (2 * n) = popCount n := by
  by_cases h : n = 0
  · simp [h]
  · rw [popCount, dif_neg (by omega)]
    have h2 : 2 * n % 2 = 0 := by omega
    have h3 : 2 * n / 2 = n := by omega
    rw [h2, h3, Nat.zero_add]

theorem popCount_two_mul_add_one (n : ℕ) : popCount (2 * n + 1) = popCount n + 1 := by
  rw [popCount, dif_neg (by omega)]
  have h2 : (2 * n + 1) % 2 = 1 := by omega
  have h3 : (2 * n + 1) / 2 = n := by omega
  rw [h2, h3, Nat.add_comm]

theorem popCount_wordOfBits (bs : List Bool) :
    popCount (wordOfBits bs) = bs.count true := by
  induction bs with
  | nil => simp [wordOfBits, popCount]
  | cons b bs ih =>
    cases b
    · rw [wordOfBits, List.foldr_cons]
      show popCount (0 + 2 * wordOfBits bs) = _
      rw [Nat.zero_add, popCount_two_mul, ih, List.count_cons]
      simp
    · rw [wordOfBits, List.foldr_cons]
      show popCount (1 + 2 * wordOfBits bs) = _
      rw [Nat.add_comm, popCount_two_mul_add_one, ih, List.count_cons]
      simp

theorem chunks32_flatten {α : Type} (l : List α) : (chunks32 l).flatten = l := by
  induction l using chunks32.induct with
  | case1 =>
    rw [chunks32]
    rfl
  | case2 a rest ih =>
    rw [chunks32, List.flatten_cons, ih, List.take_append_drop]

theorem chunks32_length {α : Type} (l : List α) :
    (chunks32 l).length = (l.length + 31) / 32 := by
  induction l using chunks32.induct with
  | case1 =>
    rw [chunks32]
    simp
  | case2 a rest ih =>
    rw [chunks32, List.length_cons, ih, List.length_drop, List.length_cons]
    omega

theorem sum_count_flatten {α : Type} [DecidableEq α] (a : α) (L : List (List α)) :
    (L.map (List.count a)).sum = (List.flatten L).count a := by
  induction L with
  | nil => simp
  | cons c L ih => simp [List.count_append, ih]

theorem count_true_map_decide_lt (m τ : ℕ) :
    ((List.range m).map (fun r => decide (r < τ))).count true = min τ m := by
  induction m with
  | zero => simp
  | succ m ih =>
    rw [List.range_succ, List.map_append, List.count_append, ih]
    by_cases h : m < τ
    · simp [h]
      omega
    · simp [h]
      omega

end NnsBenchmark

namespace NnsBenchmark

/-- C8: for every permutation vector over `m` pivots and every threshold `τ`,
the binary-permutation projection packs into exactly `⌈m/32⌉ = (m+31)/32`
32-bit words, and the total number of 1-bits over the packed words is
`min(τ, m)`. -/
theorem binarize_words_popcount (perm : List ℕ) (m τ : ℕ)
    (hperm : perm.Perm (List.range m)) :
    (Binarize perm τ).length = (m + 31) / 32 ∧
    ((Binarize perm τ).map popCount).sum = min τ m := by
  have hlen : perm.length = m := by
    rw [hperm.length_eq, List.length_range]
  constructor
  · rw [Binarize, List.length_map, chunks32_length, List.length_map, hlen]
  · rw [Binarize, List.map_map]
    have hpc : (popCount ∘ wordOfBits) = List.count true := by
      funext bs
      exact popCount_wordOfBits bs
    rw [hpc, sum_count_flatten, chunks32_flatten, (hperm.map _).count_eq]
    exact count_true_map_decide_lt m τ

/-- Witness for C8 at the concrete permutation vector `[2, 0, 1]` over `m = 3`
pivots with threshold `τ = 2`. -/
theorem binarize_words_popcount_witness :
    ([2, 0, 1] : List ℕ).Perm (List.range 3) ∧
      (Binarize [2, 0, 1] 2).length = (3 + 31) / 32 ∧
      ((Binarize [2, 0, 1] 2).map popCount).sum = min 2 3 :=
  ⟨by decide, binarize_words_popcount [2, 0, 1] 3 2 (by decide)⟩

end NnsBenchmark

namespace NnsBenchmark

/-- A surrogate-space object as created by
`VectorSpace::CreateObjFromVect(id, label, vect)`: an identifier, a label and
the projected payload. -/
structure SurrogateObj (β : Type) where
  id : ℕ
  label : ℤ
  payload : β
  deriving DecidableEq, Repr

/-- The projection loops of the surrogate-wrapper constructors:
`projData_[id] = ProjectOneVect(id, NULL, data[id])` where `ProjectOneVect`
calls `CreateObjFromVect(targSpaceId, -1, targVect)`
(proj_vptree.cc:36-45,166-170), and
`BinPermData_[i] = VPTreeSpace_->CreateObjFromVect(i, -1, binPivot)`
(perm_bin_vptree.cc:84-91): the surrogate object built from `data[i]` carries
identifier `i`, label `-1`, and the projection of `data[i]`. -/
def buildSurrogates {α β : Type} (proj : α → β) (data : List α) :
    List (SurrogateObj β) :=
  data.enum.map (fun p => ⟨p.1, -1, proj p.2⟩)

/-- C9: every surrogate object has label `-1` and identifier equal to the
index of its source object in the dataset, so for any id popped from the
surrogate result queue during re-ranking (`data_[id]`,
proj_vptree.cc:238-244, perm_bin_vptree.cc:157-163), the fetched original is
exactly the object whose projection matched. -/
theorem buildSurrogates_id_faithful {α β : Type} (proj : α → β) (data : List α)
    (o : SurrogateObj β) (ho : o ∈ buildSurrogates proj data) :
    o.label = -1 ∧
      ∃ h : o.id < data.length, o.payload = proj (data.get ⟨o.id, h⟩) := by
  unfold buildSurrogates at ho
  rcases List.mem_map.mp ho with ⟨⟨i, x⟩, hmem, rfl⟩
  have hget : data[i]? = some x := List.mem_enum_iff_getElem?.mp hmem
  rcases List.getElem?_eq_some.mp hget with ⟨hi, hx⟩
  exact ⟨rfl, hi, by simp [← hx]⟩

/-- Witness for C9 on the concrete dataset `[10, 20]` with projection
`x ↦ x + 1`. -/
theorem buildSurrogates_id_faithful_witness :
    (⟨1, -1, 21⟩ : SurrogateObj ℕ).label = -1 ∧
      ∃ h : (⟨1, -1, 21⟩ : SurrogateObj ℕ).id < ([10, 20] : List ℕ).length,
        (⟨1, -1, 21⟩ : SurrogateObj ℕ).payload =
          (fun x => x + 1) (([10, 20] : List ℕ).get
            ⟨(⟨1, -1, 21⟩ : SurrogateObj ℕ).id, h⟩) :=
  buildSurrogates_id_faithful (fun x => x + 1) [10, 20] ⟨1, -1, 21⟩ (by decide)

end NnsBenchmark
